import Mathlib

/-!
Verification of the dioniceOS 5D cognitive pipeline.

The development shallowly embeds the Rust sources:
  - overlay/unified_5d_cube/src/interlock.rs  (InterlockAdapter)
  - apollyon-mef-bridge/src/unified/cognitive_engine.rs  (UnifiedCognitiveEngine)
Machine floats (f64) are embedded as real numbers; the algorithms are
translated statement by statement. Components of the repository whose
implementation files are not part of the source snapshot (the core_5d
integration module, the trichter State5D type and the resonance adapter
internals) are modelled from the specification and marked as such in their
doc comments.
-/

namespace DioniceOS

/-- The 5D state vector: five real components, indexed 0..4.
Embeds both core_5d::State5D and trichter State5D (each is five f64 values,
convertible to an array via as_array / to_array). -/
def State5D := Fin 5 → ℝ

/-- Modelled from the spec: trichter State5D::norm (the trichter module is
absent from the source snapshot). Spec section 4.4 uses the Euclidean norm:
the square root of the sum of the squared components. -/
noncomputable def State5D.norm (s : State5D) : ℝ :=
  Real.sqrt (∑ i, s i * s i)

/-- Gate decision: FIRE or HOLD (mef_schemas::GateDecision). -/
inductive GateDecision where
  | FIRE : GateDecision
  | HOLD : GateDecision
deriving DecidableEq

/-- Simple Proof-of-Resonance data for the 5D Cube (interlock.rs).
Validity is embedded as a proposition over the real-valued fields. -/
structure SimpleProofOfResonance where
  delta_pi : ℝ
  phi : ℝ
  delta_v : ℝ
  por_valid : Prop

/-- Configuration for the interlock system (interlock.rs). -/
structure InterlockConfig where
  seed : ℕ
  gate_phi_threshold : ℝ
  gate_delta_pi_max : ℝ
  enable_logging : Bool
  shadow_mode : Bool

/-- InterlockAdapter::compute_path_invariance: the square root of the sum of
the squared componentwise differences of the two states. -/
noncomputable def InterlockAdapter.compute_path_invariance
    (prev curr : State5D) : ℝ :=
  Real.sqrt (∑ i, (curr i - prev i) * (curr i - prev i))

open Classical in
/-- InterlockAdapter::compute_alignment: cosine similarity of the two states,
0 when either sum of squares is zero. -/
noncomputable def InterlockAdapter.compute_alignment
    (prev curr : State5D) : ℝ :=
  let dot := ∑ i, prev i * curr i
  let norm_prev := ∑ i, prev i * prev i
  let norm_curr := ∑ i, curr i * curr i
  if norm_prev = 0 ∨ norm_curr = 0 then 0
  else dot / (Real.sqrt norm_prev * Real.sqrt norm_curr)

/-- InterlockAdapter::compute_lyapunov_delta: difference of the norms. -/
noncomputable def InterlockAdapter.compute_lyapunov_delta
    (prev curr : State5D) : ℝ :=
  State5D.norm curr - State5D.norm prev

open Classical in
/-- InterlockAdapter::evaluate_gate: computes delta_pi, phi, delta_v, builds
the proof with por_valid = (delta_pi ≤ gate_delta_pi_max ∧
phi ≥ gate_phi_threshold), and decides FIRE when por_valid ∧ delta_v < 0,
HOLD otherwise. The delta_t argument is unused by the source. -/
noncomputable def InterlockAdapter.evaluate_gate (cfg : InterlockConfig)
    (state_prev state_curr : State5D) (delta_t : ℝ) :
    GateDecision × SimpleProofOfResonance :=
  let delta_pi := InterlockAdapter.compute_path_invariance state_prev state_curr
  let phi := InterlockAdapter.compute_alignment state_prev state_curr
  let delta_v := InterlockAdapter.compute_lyapunov_delta state_prev state_curr
  let por_valid : Prop :=
    delta_pi ≤ cfg.gate_delta_pi_max ∧ phi ≥ cfg.gate_phi_threshold
  let proof : SimpleProofOfResonance :=
    { delta_pi := delta_pi, phi := phi, delta_v := delta_v,
      por_valid := por_valid }
  let decision :=
    if proof.por_valid ∧ proof.delta_v < 0 then GateDecision.FIRE
    else GateDecision.HOLD
  (decision, proof)

/-- C1: for every configuration and pair of 5D states, the decision returned
by InterlockAdapter::evaluate_gate is FIRE exactly when the returned proof
has por_valid and delta_v < 0, and HOLD in every other combination. -/
theorem interlock_gate_truth_table (cfg : InterlockConfig)
    (prev curr : State5D) (dt : ℝ) :
    ((InterlockAdapter.evaluate_gate cfg prev curr dt).1 = GateDecision.FIRE ↔
      ((InterlockAdapter.evaluate_gate cfg prev curr dt).2.por_valid ∧
        (InterlockAdapter.evaluate_gate cfg prev curr dt).2.delta_v < 0)) ∧
    ((InterlockAdapter.evaluate_gate cfg prev curr dt).1 = GateDecision.HOLD ↔
      ¬ ((InterlockAdapter.evaluate_gate cfg prev curr dt).2.por_valid ∧
        (InterlockAdapter.evaluate_gate cfg prev curr dt).2.delta_v < 0)) := by
  unfold InterlockAdapter.evaluate_gate
  constructor <;> (simp only []; split) <;> simp_all

/-- C2: the por_valid flag produced by InterlockAdapter::evaluate_gate holds
exactly when the computed delta_pi is at most the configured
gate_delta_pi_max and the computed phi is at least the configured
gate_phi_threshold. -/
theorem interlock_por_valid_formula (cfg : InterlockConfig)
    (prev curr : State5D) (dt : ℝ) :
    (InterlockAdapter.evaluate_gate cfg prev curr dt).2.por_valid ↔
      ((InterlockAdapter.evaluate_gate cfg prev curr dt).2.delta_pi ≤
          cfg.gate_delta_pi_max ∧
        (InterlockAdapter.evaluate_gate cfg prev curr dt).2.phi ≥
          cfg.gate_phi_threshold) := by
  unfold InterlockAdapter.evaluate_gate
  exact Iff.rfl

/-- A sum of squares of real numbers is nonnegative. -/
lemma sumsq_nonneg (s : State5D) : 0 ≤ ∑ i, s i * s i :=
  Finset.sum_nonneg fun i _ => mul_self_nonneg (s i)

/-- The Euclidean norm of a state is zero exactly when its sum of squares
is zero. -/
lemma norm_eq_zero_iff_sumsq (s : State5D) :
    State5D.norm s = 0 ↔ (∑ i, s i * s i) = 0 := by
  unfold State5D.norm
  rw [Real.sqrt_eq_zero (sumsq_nonneg s)]

/-- Cauchy-Schwarz for the five-component dot product: the dot product is at
most the product of the square roots of the sums of squares. -/
lemma dot_le_sqrt_mul_sqrt (p c : State5D) :
    (∑ i, p i * c i) ≤
      Real.sqrt (∑ i, p i * p i) * Real.sqrt (∑ i, c i * c i) := by
  have h := Real.sum_mul_le_sqrt_mul_sqrt Finset.univ (fun i => p i) (fun i => c i)
  simpa [sq] using h

/-- The spec formula for cosine alignment, written with the norm. -/
noncomputable def cosine_alignment (prev curr : State5D) : ℝ :=
  (∑ i, prev i * curr i) / (State5D.norm prev * State5D.norm curr)

/-- C4: the alignment computed by InterlockAdapter::compute_alignment lies in
the interval from -1 to 1; when both norms are nonzero it equals the cosine
(prev dot curr) divided by the product of the norms; when either norm is zero
it equals 0 exactly. -/
theorem compute_alignment_spec (prev curr : State5D) :
    (-1 ≤ InterlockAdapter.compute_alignment prev curr ∧
      InterlockAdapter.compute_alignment prev curr ≤ 1) ∧
    (State5D.norm prev ≠ 0 → State5D.norm curr ≠ 0 →
      InterlockAdapter.compute_alignment prev curr =
        cosine_alignment prev curr) ∧
    ((State5D.norm prev = 0 ∨ State5D.norm curr = 0) →
      InterlockAdapter.compute_alignment prev curr = 0) := by
  unfold InterlockAdapter.compute_alignment cosine_alignment
  simp only []
  by_cases hz : (∑ i, prev i * prev i) = 0 ∨ (∑ i, curr i * curr i) = 0
  · rw [if_pos hz]
    refine ⟨⟨by norm_num, by norm_num⟩, ?_, fun _ => rfl⟩
    intro hp hc
    exfalso
    rcases hz with h | h
    · exact hp ((norm_eq_zero_iff_sumsq prev).mpr h)
    · exact hc ((norm_eq_zero_iff_sumsq curr).mpr h)
  · rw [if_neg hz]
    push_neg at hz
    obtain ⟨hp, hc⟩ := hz
    have hpp : 0 < ∑ i, prev i * prev i := lt_of_le_of_ne (sumsq_nonneg prev) (Ne.symm hp)
    have hcc : 0 < ∑ i, curr i * curr i := lt_of_le_of_ne (sumsq_nonneg curr) (Ne.symm hc)
    have hb : 0 < Real.sqrt (∑ i, prev i * prev i) * Real.sqrt (∑ i, curr i * curr i) :=
      mul_pos (Real.sqrt_pos.mpr hpp) (Real.sqrt_pos.mpr hcc)
    refine ⟨⟨?_, ?_⟩, fun _ _ => rfl, ?_⟩
    · rw [neg_le, ← neg_div]
      rw [div_le_one hb]
      have h := dot_le_sqrt_mul_sqrt (fun i => -prev i) curr
      simpa [neg_mul, Finset.sum_neg_distrib] using h
    · rw [div_le_one hb]
      exact dot_le_sqrt_mul_sqrt prev curr
    · intro hor
      rcases hor with h | h
      · exact absurd ((norm_eq_zero_iff_sumsq prev).mp h) hp
      · exact absurd ((norm_eq_zero_iff_sumsq curr).mp h) hc

/-- C4 witness: at the zero previous state, the computed alignment is 0 and
lies in the interval from -1 to 1. -/
theorem compute_alignment_spec_witness :
    InterlockAdapter.compute_alignment (fun _ => 0) (fun _ => 1) = 0 ∧
      (-1 ≤ InterlockAdapter.compute_alignment (fun _ => 0) (fun _ => 1) ∧
        InterlockAdapter.compute_alignment (fun _ => 0) (fun _ => 1) ≤ 1) := by
  have h := compute_alignment_spec (fun _ => 0) (fun _ => 1)
  refine ⟨h.2.2 (Or.inl ?_), h.1⟩
  rw [norm_eq_zero_iff_sumsq]
  simp

/-- The spec formula for the Euclidean distance of two states: square root of
the sum of squared componentwise differences. -/
noncomputable def euclidean_dist (prev curr : State5D) : ℝ :=
  Real.sqrt (∑ i, (curr i - prev i) ^ 2)

/-- C5: the displacement computed by InterlockAdapter::compute_path_invariance
equals the Euclidean distance between the two states and is nonnegative. -/
theorem compute_path_invariance_spec (prev curr : State5D) :
    InterlockAdapter.compute_path_invariance prev curr =
      euclidean_dist prev curr ∧
    0 ≤ InterlockAdapter.compute_path_invariance prev curr := by
  constructor
  · unfold InterlockAdapter.compute_path_invariance euclidean_dist
    congr 1
    exact Finset.sum_congr rfl fun i _ => (sq (curr i - prev i)).symm
  · exact Real.sqrt_nonneg _

/-- Data structure for MEF commits (interlock.rs CommitData). The wall-clock
timestamp is embedded as an integer supplied by the caller, standing for
chrono Utc::now(). -/
structure CommitData where
  state : State5D
  proof : SimpleProofOfResonance
  commit_hash : String
  timestamp : ℤ

/-- InterlockAdapter::prepare_commit: feeds the debug-formatted state array,
the alignment phi formatted at 10 decimal digits, and the configured seed to
a SHA-256 hasher and stores the hex digest next to the state, the proof and
the current wall-clock timestamp. The sha2 crate and the std formatters are
external code, embedded as function parameters: sha256hex consumes the three
update strings in order, fmtArray and fmt10 and fmtSeed stand for the
format calls on the state array, on phi and on the seed. -/
def InterlockAdapter.prepare_commit (sha256hex : List String → String)
    (fmtArray : State5D → String) (fmt10 : ℝ → String) (fmtSeed : ℕ → String)
    (cfg : InterlockConfig) (state : State5D) (proof : SimpleProofOfResonance)
    (now : ℤ) : CommitData :=
  { state := state
    proof := proof
    commit_hash := sha256hex [fmtArray state, fmt10 proof.phi, fmtSeed cfg.seed]
    timestamp := now }

/-- C8: the commit hash produced by InterlockAdapter::prepare_commit depends
only on the state array, the phi field of the proof, and the configured
seed: two calls with equal states, equal phi and equal seeds produce the
identical digest whatever the timestamps, the remaining proof fields or the
remaining configuration fields are; and the stored timestamp is exactly the
supplied wall-clock value, not an input of the digest. -/
theorem prepare_commit_deterministic (sha256hex : List String → String)
    (fmtArray : State5D → String) (fmt10 : ℝ → String) (fmtSeed : ℕ → String)
    (cfg₁ cfg₂ : InterlockConfig) (state₁ state₂ : State5D)
    (proof₁ proof₂ : SimpleProofOfResonance) (now₁ now₂ : ℤ)
    (hstate : state₁ = state₂) (hphi : proof₁.phi = proof₂.phi)
    (hseed : cfg₁.seed = cfg₂.seed) :
    (InterlockAdapter.prepare_commit sha256hex fmtArray fmt10 fmtSeed
        cfg₁ state₁ proof₁ now₁).commit_hash =
      (InterlockAdapter.prepare_commit sha256hex fmtArray fmt10 fmtSeed
        cfg₂ state₂ proof₂ now₂).commit_hash ∧
    (InterlockAdapter.prepare_commit sha256hex fmtArray fmt10 fmtSeed
        cfg₁ state₁ proof₁ now₁).timestamp = now₁ := by
  unfold InterlockAdapter.prepare_commit
  rw [hstate, hphi, hseed]
  exact ⟨rfl, rfl⟩

/-- C8 witness: with a concrete join-based hasher, trivial formatters, two
configurations agreeing on the seed only, two proofs agreeing on phi only
and two different timestamps, the digests coincide and the stored timestamp
is the supplied one. -/
theorem prepare_commit_deterministic_witness :
    (InterlockAdapter.prepare_commit String.join (fun _ => "s") (fun _ => "p")
        (fun n => toString n)
        ⟨7, 0, 0, true, true⟩ (fun _ => 0) ⟨0, 1, 0, True⟩ 5).commit_hash =
      (InterlockAdapter.prepare_commit String.join (fun _ => "s") (fun _ => "p")
        (fun n => toString n)
        ⟨7, 1, 2, false, false⟩ (fun _ => 0) ⟨3, 1, 4, False⟩ 9).commit_hash ∧
    (InterlockAdapter.prepare_commit String.join (fun _ => "s") (fun _ => "p")
        (fun n => toString n)
        ⟨7, 0, 0, true, true⟩ (fun _ => 0) ⟨0, 1, 0, True⟩ 5).timestamp = 5 :=
  prepare_commit_deterministic String.join (fun _ => "s") (fun _ => "p")
    (fun n => toString n) ⟨7, 0, 0, true, true⟩ ⟨7, 1, 2, false, false⟩
    (fun _ => 0) (fun _ => 0) ⟨0, 1, 0, True⟩ ⟨3, 1, 4, False⟩ 5 9
    rfl rfl rfl

/-- Errors of the cognitive pipeline (cognitive_engine.rs CognitiveError). -/
inductive CognitiveError where
  | IntegrationError : String → CognitiveError
  | InvalidState : String → CognitiveError
  | SpectralAnalysisError : String → CognitiveError
  | RouteSelectionError : String → CognitiveError
  | EmptyTrajectory : CognitiveError
deriving DecidableEq

/-- Discriminator for the SpectralAnalysisError variant of CognitiveError. -/
def CognitiveError.isSpectralAnalysisError : CognitiveError → Bool
  | CognitiveError.SpectralAnalysisError _ => true
  | _ => false

/-- Spectral signature (mef_schemas::SpectralSignature): psi, rho, omega. -/
structure SpectralSignature where
  psi : ℝ
  rho : ℝ
  omega : ℝ

/-- Modelled from the spec: ProofOfResonanceData of the resonance adapter
(the adapter file in the source snapshot is an empty placeholder). Spec
section 4.4: displacement delta_pi, alignment phi, energy delta delta_v and
a validity flag. -/
structure ProofOfResonanceData where
  delta_pi : ℝ
  phi : ℝ
  delta_v : ℝ
  por_valid : Prop

/-- Modelled from the spec: the Default value of ProofOfResonanceData
(derive-Default in Rust zeroes the numeric fields and makes the flag
false). -/
def ProofOfResonanceData.default : ProofOfResonanceData :=
  { delta_pi := 0, phi := 0, delta_v := 0, por_valid := False }

open Classical in
/-- Modelled from the spec: ResonanceBridge::compute_proof (the resonance
adapter implementation is absent from the source snapshot). Spec section
4.4: delta_pi is the Euclidean distance of the two states, phi the cosine
alignment (0 on a zero norm), delta_v the difference of the norms, and the
proof is valid when delta_pi ≤ max_delta_pi and phi ≥ min_phi for the two
configured thresholds. The resonance-field strength r and the time t are
inputs that the formulas do not use. -/
noncomputable def ResonanceBridge.compute_proof (max_delta_pi min_phi : ℝ)
    (r : ℝ) (prev curr : State5D) (t : ℝ) : ProofOfResonanceData :=
  let delta_pi := euclidean_dist prev curr
  let phi :=
    if State5D.norm prev = 0 ∨ State5D.norm curr = 0 then 0
    else cosine_alignment prev curr
  let delta_v := State5D.norm curr - State5D.norm prev
  { delta_pi := delta_pi
    phi := phi
    delta_v := delta_v
    por_valid := delta_pi ≤ max_delta_pi ∧ phi ≥ min_phi }

open Classical in
/-- Modelled from the spec: ResonanceBridge::evaluate_gate (absent from the
source snapshot). Spec section 4.5: FIRE exactly when the proof is valid and
delta_v < 0, otherwise HOLD. -/
noncomputable def ResonanceBridge.evaluate_gate (max_delta_pi min_phi : ℝ)
    (r : ℝ) (prev curr : State5D) (t : ℝ) : GateDecision :=
  let proof := ResonanceBridge.compute_proof max_delta_pi min_phi r prev curr t
  if proof.por_valid ∧ proof.delta_v < 0 then GateDecision.FIRE
  else GateDecision.HOLD

/-- UnifiedCognitiveEngine::compute_proof_of_resonance: the default proof for
a trajectory of fewer than two points, otherwise the bridge proof on the
last two points with a constant resonance field of strength 0.8 at time 0.
The bridge thresholds max_delta_pi and min_phi are parameters because the
adapter implementation is absent from the source snapshot. -/
noncomputable def UnifiedCognitiveEngine.compute_proof_of_resonance
    (max_delta_pi min_phi : ℝ) (trajectory : List State5D) :
    ProofOfResonanceData :=
  if h : trajectory.length < 2 then ProofOfResonanceData.default
  else
    let state_prev := trajectory.get ⟨trajectory.length - 2, by omega⟩
    let state_curr := trajectory.get ⟨trajectory.length - 1, by omega⟩
    ResonanceBridge.compute_proof max_delta_pi min_phi 0.8
      state_prev state_curr 0

/-- UnifiedCognitiveEngine::evaluate_gate: HOLD for a trajectory of fewer
than two points, otherwise the bridge gate on the last two points with a
constant resonance field of strength 0.8 at time 0. -/
noncomputable def UnifiedCognitiveEngine.evaluate_gate
    (max_delta_pi min_phi : ℝ) (trajectory : List State5D) : GateDecision :=
  if h : trajectory.length < 2 then GateDecision.HOLD
  else
    let state_prev := trajectory.get ⟨trajectory.length - 2, by omega⟩
    let state_curr := trajectory.get ⟨trajectory.length - 1, by omega⟩
    ResonanceBridge.evaluate_gate max_delta_pi min_phi 0.8
      state_prev state_curr 0

/-- Componentwise mean of the trajectory, as computed inside
UnifiedCognitiveEngine::analyze_spectrum (sum of each component divided by
the trajectory length). -/
noncomputable def centroids (trajectory : List State5D) : Fin 5 → ℝ :=
  fun i => (trajectory.map (fun s => s i)).sum / trajectory.length

/-- UnifiedCognitiveEngine::analyze_spectrum: fails on an empty trajectory,
otherwise builds the signature from the average entropy, the centroids and
the dominant frequency of component 0 (defaulting to 0 when none). The
SpectralAnalyzer and the SpectralAdapter conversion live outside the source
snapshot and are embedded as the function parameters average_entropy,
dominant_frequency and features_to_signature. -/
noncomputable def UnifiedCognitiveEngine.analyze_spectrum
    (average_entropy : List State5D → ℝ)
    (dominant_frequency : List State5D → Option ℝ)
    (features_to_signature : ℝ → (Fin 5 → ℝ) → ℝ → SpectralSignature)
    (trajectory : List State5D) : Except CognitiveError SpectralSignature :=
  if trajectory.isEmpty then Except.error CognitiveError.EmptyTrajectory
  else
    Except.ok (features_to_signature (average_entropy trajectory)
      (centroids trajectory) ((dominant_frequency trajectory).getD 0))

/-- One step of the explicit two-stage predictor-corrector scheme of spec
section 4.2 (improved Euler / Heun): k1 at the current state, predictor
x + h k1, k2 at the predictor, update x + (h/2)(k1 + k2). The vector field
f is a parameter because the core_5d dynamics module is absent from the
source snapshot. -/
noncomputable def heun_step (f : State5D → State5D) (h : ℝ)
    (x : State5D) : State5D :=
  let k1 := f x
  let xpred : State5D := fun i => x i + h * k1 i
  let k2 := f xpred
  fun i => x i + (h / 2) * (k1 i + k2 i)

/-- The list of n + 1 states obtained by starting at x and applying n Heun
steps, most recent last. -/
noncomputable def heun_traj (f : State5D → State5D) (h : ℝ) :
    ℕ → State5D → List State5D
  | 0, x => [x]
  | n + 1, x => x :: heun_traj f h n (heun_step f h x)

/-- Modelled from the spec: core_5d Integrator::integrate_states (the
integration module is absent from the source snapshot; the call site in
cognitive_engine.rs returns its result directly). Spec section 4.2: for a
positive step h and horizon t_final the trajectory has ceil(t_final / h) + 1
samples with the initial state at index 0; an invalid configuration (h ≤ 0
or t_final ≤ 0) produces no samples, which the caller surfaces as the
EmptyTrajectory error. -/
noncomputable def Integrator.integrate_states (f : State5D → State5D)
    (h t_final : ℝ) (x0 : State5D) : List State5D :=
  if h ≤ 0 ∨ t_final ≤ 0 then []
  else heun_traj f h (Int.toNat ⌈t_final / h⌉) x0

/-- Input for cognitive processing (unified/types.rs CognitiveInput). The
SystemParameters field is represented by the vector field it induces, since
the core_5d dynamics module is absent from the source snapshot. -/
structure CognitiveInput where
  initial_state : State5D
  parameters : State5D → State5D
  t_final : ℝ
  tic_id : String
  seed : String
  seed_path : String

/-- UnifiedCognitiveEngine::integrate_5d: integrates the 5D dynamics with
fixed step 0.01 from time 0 to the requested horizon and wraps the
trajectory in Ok; the function itself never errors. -/
noncomputable def UnifiedCognitiveEngine.integrate_5d
    (input : CognitiveInput) : Except CognitiveError (List State5D) :=
  Except.ok (Integrator.integrate_states input.parameters 0.01
    input.t_final input.initial_state)

/-- Selected MEF route (mef_schemas::RouteSpec). -/
structure RouteSpec where
  route_id : String
  permutation : List ℤ
  score : ℝ

/-- Knowledge object (mef_schemas::KnowledgeObject) as used by the engine:
the derived MEF id, the TIC id, the route id, the seed path, the raw seed
bytes and an optional payload, here summarized by the spectral values and
the route information that cognitive_engine.rs serializes into it. -/
structure KnowledgeObject where
  mef_id : String
  tic_id : String
  route_id : String
  seed_path : String
  seed_bytes : List ℕ
  payload : Option (SpectralSignature × String × List ℤ)

/-- UnifiedCognitiveEngine::create_knowledge_object: derives the MEF id from
the TIC id, the route id and the first 8 characters of the seed, and bundles
the seed bytes and a payload holding the spectral signature and the route
data. -/
noncomputable def UnifiedCognitiveEngine.create_knowledge_object
    (input : CognitiveInput) (route : RouteSpec)
    (spectral : SpectralSignature) : KnowledgeObject :=
  { mef_id := "MEF-" ++ input.tic_id ++ "-" ++ route.route_id ++ "-" ++
      (input.seed.take 8)
    tic_id := input.tic_id
    route_id := route.route_id
    seed_path := input.seed_path
    seed_bytes := input.seed.toList.map Char.toNat
    payload := some (spectral, route.route_id, route.permutation) }

/-- Output from cognitive processing (unified/types.rs CognitiveOutput). -/
structure CognitiveOutput where
  trajectory : List State5D
  spectral_signature : SpectralSignature
  route : RouteSpec
  proof : ProofOfResonanceData
  gate_decision : GateDecision
  knowledge : Option KnowledgeObject

/-- UnifiedCognitiveEngine::process: integrate, fail on an empty trajectory,
analyze the spectrum, convert the final state (a discarded value in the
source), select a route through the Metatron bridge (an external
collaborator, embedded as the select_route parameter whose failures are
wrapped in RouteSelectionError), create the knowledge object, compute the
proof of resonance and the gate decision on the trajectory, and assemble
the output. -/
noncomputable def UnifiedCognitiveEngine.process
    (average_entropy : List State5D → ℝ)
    (dominant_frequency : List State5D → Option ℝ)
    (features_to_signature : ℝ → (Fin 5 → ℝ) → ℝ → SpectralSignature)
    (select_route : State5D → String → ℝ → Except String RouteSpec)
    (max_delta_pi min_phi : ℝ)
    (input : CognitiveInput) : Except CognitiveError CognitiveOutput :=
  match UnifiedCognitiveEngine.integrate_5d input with
  | Except.error e => Except.error e
  | Except.ok trajectory =>
    if trajectory.isEmpty then Except.error CognitiveError.EmptyTrajectory
    else
      match UnifiedCognitiveEngine.analyze_spectrum average_entropy
          dominant_frequency features_to_signature trajectory with
      | Except.error e => Except.error e
      | Except.ok spectral_signature =>
        match trajectory.getLast? with
        | none => Except.error CognitiveError.EmptyTrajectory
        | some final_state =>
          match select_route final_state input.seed 0 with
          | Except.error e =>
            Except.error (CognitiveError.RouteSelectionError e)
          | Except.ok route =>
            let knowledge := UnifiedCognitiveEngine.create_knowledge_object
              input route spectral_signature
            let proof := UnifiedCognitiveEngine.compute_proof_of_resonance
              max_delta_pi min_phi trajectory
            let gate_decision := UnifiedCognitiveEngine.evaluate_gate
              max_delta_pi min_phi trajectory
            Except.ok
              { trajectory := trajectory
                spectral_signature := spectral_signature
                route := route
                proof := proof
                gate_decision := gate_decision
                knowledge := some knowledge }

/-- C3: for every trajectory of fewer than two points and any bridge
thresholds, UnifiedCognitiveEngine::evaluate_gate returns HOLD. -/
theorem engine_gate_short_trajectory_holds (max_delta_pi min_phi : ℝ)
    (trajectory : List State5D) (h : trajectory.length < 2) :
    UnifiedCognitiveEngine.evaluate_gate max_delta_pi min_phi trajectory =
      GateDecision.HOLD := by
  unfold UnifiedCognitiveEngine.evaluate_gate
  rw [dif_pos h]

/-- C3 witness: the empty trajectory has length below 2 and the engine gate
returns HOLD on it. -/
theorem engine_gate_short_trajectory_holds_witness :
    ([] : List State5D).length < 2 ∧
      UnifiedCognitiveEngine.evaluate_gate 0 0 [] = GateDecision.HOLD :=
  ⟨by decide, engine_gate_short_trajectory_holds 0 0 [] (by decide)⟩

/-- C6 counterexample: on the empty trajectory,
UnifiedCognitiveEngine::analyze_spectrum fails with the EmptyTrajectory
error kind, which is not the SpectralAnalysisError kind the claim names. -/
theorem analyze_spectrum_empty_not_spectral_error :
    UnifiedCognitiveEngine.analyze_spectrum (fun _ => 0) (fun _ => none)
        (fun _ _ _ => ⟨0, 0, 0⟩) [] =
      Except.error CognitiveError.EmptyTrajectory ∧
    CognitiveError.EmptyTrajectory.isSpectralAnalysisError = false := by
  constructor
  · rfl
  · rfl

/-- C6 amended: on the empty trajectory (zero samples), the spectral
analysis step fails with the EmptyTrajectory error kind, for every analyzer
and signature-conversion collaborator. -/
theorem analyze_spectrum_empty_fails (average_entropy : List State5D → ℝ)
    (dominant_frequency : List State5D → Option ℝ)
    (features_to_signature : ℝ → (Fin 5 → ℝ) → ℝ → SpectralSignature) :
    UnifiedCognitiveEngine.analyze_spectrum average_entropy
        dominant_frequency features_to_signature [] =
      Except.error CognitiveError.EmptyTrajectory := rfl

/-- C10: for every pair of bridge thresholds, the proof of resonance of a
trajectory of fewer than two points is the default value, and for longer
trajectories the proof depends only on the last two points: two trajectories
of length at least 2 that agree on their last two points get the identical
proof. -/
theorem por_default_and_last_two_only (max_delta_pi min_phi : ℝ) :
    (∀ trajectory : List State5D, trajectory.length < 2 →
      UnifiedCognitiveEngine.compute_proof_of_resonance max_delta_pi min_phi
        trajectory = ProofOfResonanceData.default) ∧
    (∀ (t₁ t₂ : List State5D) (h₁ : 2 ≤ t₁.length) (h₂ : 2 ≤ t₂.length),
      t₁.get ⟨t₁.length - 2, by omega⟩ = t₂.get ⟨t₂.length - 2, by omega⟩ →
      t₁.get ⟨t₁.length - 1, by omega⟩ = t₂.get ⟨t₂.length - 1, by omega⟩ →
      UnifiedCognitiveEngine.compute_proof_of_resonance max_delta_pi min_phi
          t₁ =
        UnifiedCognitiveEngine.compute_proof_of_resonance max_delta_pi min_phi
          t₂) := by
  constructor
  · intro trajectory h
    unfold UnifiedCognitiveEngine.compute_proof_of_resonance
    rw [dif_pos h]
  · intro t₁ t₂ h₁ h₂ hprev hlast
    unfold UnifiedCognitiveEngine.compute_proof_of_resonance
    rw [dif_neg (by omega), dif_neg (by omega)]
    simp only []
    rw [hprev, hlast]

/-- C10 witness: the proof of the empty trajectory is the default value, and
two concrete three-point and two-point trajectories sharing their last two
points get the identical proof. -/
theorem por_default_and_last_two_only_witness :
    UnifiedCognitiveEngine.compute_proof_of_resonance 0 0 [] =
      ProofOfResonanceData.default ∧
    UnifiedCognitiveEngine.compute_proof_of_resonance 0 0
        [fun _ => 5, fun _ => 1, fun _ => 2] =
      UnifiedCognitiveEngine.compute_proof_of_resonance 0 0
        [fun _ => 1, fun _ => 2] :=
  ⟨(por_default_and_last_two_only 0 0).1 [] (by decide),
    (por_default_and_last_two_only 0 0).2
      [fun _ => 5, fun _ => 1, fun _ => 2] [fun _ => 1, fun _ => 2]
      (by decide) (by decide) rfl rfl⟩

/-- The Heun trajectory always starts at its initial state. -/
lemma heun_traj_head (f : State5D → State5D) (h : ℝ) (n : ℕ) (x : State5D) :
    (heun_traj f h n x).head? = some x := by
  cases n <;> rfl

/-- A nonempty integrator trajectory starts at the initial state. -/
lemma integrate_states_head (f : State5D → State5D) (h t_final : ℝ)
    (x0 : State5D)
    (hne : Integrator.integrate_states f h t_final x0 ≠ []) :
    (Integrator.integrate_states f h t_final x0).head? = some x0 := by
  unfold Integrator.integrate_states at hne ⊢
  by_cases hc : h ≤ 0 ∨ t_final ≤ 0
  · rw [if_pos hc] at hne
    exact absurd rfl hne
  · rw [if_neg hc]
    exact heun_traj_head f h _ x0

/-- C7: for every input with horizon 0, the pipeline fails with the
EmptyTrajectory error (so neither spectral analysis nor gate evaluation
contributes to the result), and the integrator invoked with step size 0
produces no samples. -/
theorem pipeline_zero_horizon_empty (average_entropy : List State5D → ℝ)
    (dominant_frequency : List State5D → Option ℝ)
    (features_to_signature : ℝ → (Fin 5 → ℝ) → ℝ → SpectralSignature)
    (select_route : State5D → String → ℝ → Except String RouteSpec)
    (max_delta_pi min_phi : ℝ) (input : CognitiveInput)
    (f : State5D → State5D) (h t_final : ℝ) (x0 : State5D) :
    (input.t_final = 0 →
      UnifiedCognitiveEngine.process average_entropy dominant_frequency
          features_to_signature select_route max_delta_pi min_phi input =
        Except.error CognitiveError.EmptyTrajectory) ∧
    (h = 0 → Integrator.integrate_states f h t_final x0 = []) := by
  constructor
  · intro h0
    unfold UnifiedCognitiveEngine.process UnifiedCognitiveEngine.integrate_5d
      Integrator.integrate_states
    rw [h0, if_pos (Or.inr le_rfl)]
    rfl
  · intro hh
    unfold Integrator.integrate_states
    rw [hh, if_pos (Or.inl le_rfl)]

/-- C7 witness: a concrete input with horizon 0 makes the pipeline fail with
EmptyTrajectory, and a concrete integrator call with step size 0 produces no
samples. -/
theorem pipeline_zero_horizon_empty_witness :
    UnifiedCognitiveEngine.process (fun _ => 0) (fun _ => none)
        (fun _ _ _ => ⟨0, 0, 0⟩) (fun _ _ _ => Except.ok ⟨"R1", [], 0⟩) 0 0
        { initial_state := fun _ => 1, parameters := fun _ => fun _ => 0,
          t_final := 0, tic_id := "TIC", seed := "seed",
          seed_path := "path" } =
      Except.error CognitiveError.EmptyTrajectory ∧
    Integrator.integrate_states (fun _ => fun _ => 0) 0 1 (fun _ => 1) =
      [] :=
  ⟨(pipeline_zero_horizon_empty (fun _ => 0) (fun _ => none)
      (fun _ _ _ => ⟨0, 0, 0⟩) (fun _ _ _ => Except.ok ⟨"R1", [], 0⟩) 0 0
      { initial_state := fun _ => 1, parameters := fun _ => fun _ => 0,
        t_final := 0, tic_id := "TIC", seed := "seed", seed_path := "path" }
      (fun _ => fun _ => 0) 0 1 (fun _ => 1)).1 rfl,
    (pipeline_zero_horizon_empty (fun _ => 0) (fun _ => none)
      (fun _ _ _ => ⟨0, 0, 0⟩) (fun _ _ _ => Except.ok ⟨"R1", [], 0⟩) 0 0
      { initial_state := fun _ => 1, parameters := fun _ => fun _ => 0,
        t_final := 0, tic_id := "TIC", seed := "seed", seed_path := "path" }
      (fun _ => fun _ => 0) 0 1 (fun _ => 1)).2 rfl⟩

/-- C9: every successful run of the pipeline produces a nonempty trajectory
whose element at index 0 is exactly the initial state of the input. -/
theorem pipeline_trajectory_starts_at_initial
    (average_entropy : List State5D → ℝ)
    (dominant_frequency : List State5D → Option ℝ)
    (features_to_signature : ℝ → (Fin 5 → ℝ) → ℝ → SpectralSignature)
    (select_route : State5D → String → ℝ → Except String RouteSpec)
    (max_delta_pi min_phi : ℝ) (input : CognitiveInput)
    (out : CognitiveOutput)
    (hok : UnifiedCognitiveEngine.process average_entropy dominant_frequency
        features_to_signature select_route max_delta_pi min_phi input =
      Except.ok out) :
    out.trajectory ≠ [] ∧
      out.trajectory.head? = some input.initial_state := by
  unfold UnifiedCognitiveEngine.process UnifiedCognitiveEngine.integrate_5d
    UnifiedCognitiveEngine.analyze_spectrum at hok
  set T := Integrator.integrate_states input.parameters 0.01 input.t_final
    input.initial_state with hT
  simp only [] at hok
  by_cases he : T.isEmpty = true
  · rw [if_pos he] at hok
    exact absurd hok (by simp)
  · rw [if_neg he, if_neg he] at hok
    have hne : T ≠ [] := by
      intro hnil
      rw [hnil] at he
      exact he rfl
    rcases hgl : T.getLast? with _ | final_state
    · rw [hgl] at hok
      exact absurd hok (by simp)
    · rw [hgl] at hok
      simp only [] at hok
      rcases hsr : select_route final_state input.seed 0 with e | route
      · rw [hsr] at hok
        exact absurd hok (by simp)
      · rw [hsr] at hok
        simp only [Except.ok.injEq] at hok
        rw [← hok]
        exact ⟨hne, integrate_states_head input.parameters 0.01 input.t_final
          input.initial_state hne⟩

/-- The Heun trajectory is never empty. -/
lemma heun_traj_ne_nil (f : State5D → State5D) (h : ℝ) (n : ℕ)
    (x : State5D) : heun_traj f h n x ≠ [] := by
  cases n <;> simp [heun_traj]

/-- The zero vector field used in concrete runs. -/
def wfield : State5D → State5D := fun _ => fun _ => 0

/-- A concrete initial state with all components 1. -/
def winit : State5D := fun _ => 1

/-- A concrete pipeline input with horizon 1 over the zero field. -/
def winput1 : CognitiveInput :=
  { initial_state := winit, parameters := wfield, t_final := 1,
    tic_id := "TIC", seed := "seed", seed_path := "path" }

/-- The trajectory of the concrete run. -/
noncomputable def wtraj : List State5D :=
  Integrator.integrate_states wfield 0.01 1 winit

/-- The trajectory of the concrete run is nonempty. -/
lemma wtraj_ne_nil : wtraj ≠ [] := by
  unfold wtraj Integrator.integrate_states
  rw [if_neg (by norm_num)]
  exact heun_traj_ne_nil wfield 0.01 _ winit

/-- The output record of the concrete run. -/
noncomputable def wout : CognitiveOutput :=
  { trajectory := wtraj
    spectral_signature := ⟨0, 0, 0⟩
    route := ⟨"R1", [], 0⟩
    proof := UnifiedCognitiveEngine.compute_proof_of_resonance 0 0 wtraj
    gate_decision := UnifiedCognitiveEngine.evaluate_gate 0 0 wtraj
    knowledge := some (UnifiedCognitiveEngine.create_knowledge_object winput1
      ⟨"R1", [], 0⟩ ⟨0, 0, 0⟩) }

/-- The concrete pipeline run succeeds and produces the concrete output. -/
lemma wprocess_ok :
    UnifiedCognitiveEngine.process (fun _ => 0) (fun _ => none)
        (fun _ _ _ => ⟨0, 0, 0⟩) (fun _ _ _ => Except.ok ⟨"R1", [], 0⟩) 0 0
        winput1 =
      Except.ok wout := by
  unfold UnifiedCognitiveEngine.process UnifiedCognitiveEngine.integrate_5d
    UnifiedCognitiveEngine.analyze_spectrum
  simp only []
  rw [show Integrator.integrate_states winput1.parameters 0.01
      winput1.t_final winput1.initial_state = wtraj from rfl]
  have hne' : ¬ (wtraj.isEmpty = true) := by
    simp [List.isEmpty_iff, wtraj_ne_nil]
  rw [if_neg hne', if_neg hne']
  simp only []
  rcases hgl : wtraj.getLast? with _ | final_state
  · exact absurd (List.getLast?_eq_none_iff.mp hgl) wtraj_ne_nil
  · rfl

/-- C9 witness: the concrete successful run has a nonempty trajectory whose
element at index 0 is the initial state of the concrete input. -/
theorem pipeline_trajectory_starts_at_initial_witness :
    wout.trajectory ≠ [] ∧ wout.trajectory.head? = some winput1.initial_state :=
  pipeline_trajectory_starts_at_initial (fun _ => 0) (fun _ => none)
    (fun _ _ _ => ⟨0, 0, 0⟩) (fun _ _ _ => Except.ok ⟨"R1", [], 0⟩) 0 0
    winput1 wout wprocess_ok

end DioniceOS
